import Mathlib

/-!
Verification of the rule-based data validation engine described by this
repository's design document (spec.md), together with the concrete
expectation suite built by `src/gx_yellowtaxi_data_validation_tutorial.ipynb`.
The repository itself is a tutorial that delegates every operation to the
external Great Expectations library, so the engine below is modelled from the
design document; the notebook's suite-building cells are translated directly.
-/

namespace TaxiValidation

/-- Modelled from the spec: a cell value of a Batch column (§3) is of mixed
underlying type — string, number, or null.  The engine itself is absent from
the repository (the notebook only calls the external library), so this type
follows spec.md §3. -/
inductive Value where
  | null : Value
  | int : Int → Value
  | str : String → Value
  deriving DecidableEq, Repr

/-- Modelled from the spec: whether a cell value is null/missing. -/
def Value.isNull : Value → Bool
  | .null => true
  | _ => false

/-- Modelled from the spec: a Batch (§3) is an immutable tabular snapshot:
an ordered sequence of column names and, for each, a sequence of cell values. -/
structure Batch where
  cols : List (String × List Value)
  deriving DecidableEq, Repr

/-- Modelled from the spec: the data-access error of §7 — `UnknownColumnError`
carrying the offending column name. -/
inductive VError where
  | unknownColumnError : String → VError
  deriving DecidableEq, Repr

/-- Modelled from the spec: the configuration error of §4.2. -/
inductive ConfigError where
  | invalidExpectationConfigError : ConfigError
  deriving DecidableEq, Repr

/-- Modelled from the spec: the registry errors of §4.3 / §7. -/
inductive RegError where
  | duplicateSuiteNameError : String → RegError
  | indexOutOfRangeError : Nat → RegError
  | suiteNotFoundError : String → RegError
  deriving DecidableEq, Repr

/-- Modelled from the spec: the Column Accessor (§4.1) — pure lookup of a
named column in a Batch, failing with `UnknownColumnError` when the name is
not among the Batch's declared columns. -/
def get_column (b : Batch) (name : String) : Except VError (List Value) :=
  match b.cols.lookup name with
  | some vs => Except.ok vs
  | none => Except.error (VError.unknownColumnError name)

/-- Modelled from the spec: an Expectation (§3, §4.2) as a closed tagged
variant (§9): either NotNull on a column, or InRange on a column with
optional inclusive lower/upper integer bounds. -/
inductive Expectation where
  | notNull : String → Expectation
  | inRange : String → Option Int → Option Int → Expectation
  deriving DecidableEq, Repr

/-- Modelled from the spec: the column an Expectation checks. -/
def Expectation.column : Expectation → String
  | .notNull c => c
  | .inRange c _ _ => c

/-- Modelled from the spec: parameter consistency of §3/§4.2 — an in-range
rule with both bounds present requires min ≤ max. -/
def Expectation.validConfig : Expectation → Bool
  | .notNull _ => true
  | .inRange _ (some lo) (some hi) => decide (lo ≤ hi)
  | .inRange _ _ _ => true

/-- Modelled from the spec: checked construction of an in-range Expectation
(§4.2), failing with `InvalidExpectationConfigError` on malformed parameters. -/
def mkInRange (column : String) (lo hi : Option Int) : Except ConfigError Expectation :=
  let e := Expectation.inRange column lo hi
  if e.validConfig then Except.ok e else Except.error ConfigError.invalidExpectationConfigError

/-- Modelled from the spec: the default bound N on reported samples (§4.2). -/
def defaultSampleLimit : Nat := 20

/-- Modelled from the spec: whether one cell value satisfies an InRange rule
(§4.2): null is vacuously in range; a number must lie within whichever bounds
are configured (inclusive); a non-numeric, non-null value violates the rule. -/
def Value.inRangeOk (lo hi : Option Int) : Value → Bool
  | .null => true
  | .int n =>
      (match lo with | some m => decide (m ≤ n) | none => true) &&
      (match hi with | some m => decide (n ≤ m) | none => true)
  | .str _ => false

/-- Modelled from the spec: kind-specific outcome detail (§3, §4.2): a
NotNull detail carries the null count and a bounded sample of row indices; an
InRange detail carries the out-of-range count, the non-null count, the
fraction of out-of-range rows among non-null rows, and a bounded sample of
offending (index, value) pairs. -/
inductive Detail where
  | notNullDetail : Nat → List Nat → Detail
  | inRangeDetail : Nat → Nat → ℚ → List (Nat × Value) → Detail
  deriving DecidableEq, Repr

/-- Modelled from the spec: a per-expectation outcome record (§3), holding
the originating Expectation for traceability, a success flag and detail. -/
structure ExpectationOutcome where
  expectation : Expectation
  success : Bool
  detail : Detail
  deriving DecidableEq, Repr

/-- Modelled from the spec: the Validation Result of one run (§3). -/
structure ValidationResult where
  success : Bool
  outcomes : List ExpectationOutcome
  deriving DecidableEq, Repr

/-- Modelled from the spec: the row indices at which a null occurs, counting
the first row of `values` as index `k`; rows are visited in order, so the
indices come out in increasing order (§4.4 stable sampling). -/
def nullIndicesFrom (k : Nat) : List Value → List Nat
  | [] => []
  | v :: vs =>
      if v.isNull then k :: nullIndicesFrom (k + 1) vs
      else nullIndicesFrom (k + 1) vs

/-- Modelled from the spec: NotNull evaluation (§4.2) — success iff no value
is null; detail holds the null count and the first `limit` null row indices. -/
def evaluateNotNull (limit : Nat) (e : Expectation) (values : List Value) :
    ExpectationOutcome :=
  let idxs := nullIndicesFrom 0 values
  { expectation := e
    success := idxs.isEmpty
    detail := Detail.notNullDetail idxs.length (idxs.take limit) }

/-- Modelled from the spec: the (index, value) pairs violating an InRange
rule, counting the first row of `values` as index `k`. -/
def outOfRangeFrom (lo hi : Option Int) (k : Nat) : List Value → List (Nat × Value)
  | [] => []
  | v :: vs =>
      if v.inRangeOk lo hi then outOfRangeFrom lo hi (k + 1) vs
      else (k, v) :: outOfRangeFrom lo hi (k + 1) vs

/-- Modelled from the spec: InRange evaluation (§4.2) — success iff every
non-null value lies within the configured bounds; detail holds the
out-of-range count, the non-null count, the fraction of out-of-range rows
among non-null rows (0 when there are none), and the first `limit` offending
(index, value) pairs. -/
def evaluateInRange (limit : Nat) (e : Expectation) (lo hi : Option Int)
    (values : List Value) : ExpectationOutcome :=
  let offending := outOfRangeFrom lo hi 0 values
  let nn := (values.filter (fun v => !v.isNull)).length
  { expectation := e
    success := offending.isEmpty
    detail := Detail.inRangeDetail offending.length nn
      (if nn = 0 then 0 else (offending.length : ℚ) / (nn : ℚ))
      (offending.take limit) }

/-- Modelled from the spec: polymorphic evaluation over the expectation kinds
(§4.2), a pure function of the column's values alone. -/
def Expectation.evaluate (limit : Nat) : Expectation → List Value → ExpectationOutcome
  | e@(.notNull _), values => evaluateNotNull limit e values
  | e@(.inRange _ lo hi), values => evaluateInRange limit e lo hi values

/-- Modelled from the spec: a named, ordered collection of Expectations (§3). -/
structure Suite where
  name : String
  expectations : List Expectation
  deriving DecidableEq, Repr

/-- Modelled from the spec: `add` (§4.3) appends to the ordered sequence,
with no deduplication. -/
def Suite.add (s : Suite) (e : Expectation) : Suite :=
  { s with expectations := s.expectations ++ [e] }

/-- Modelled from the spec: `remove` (§4.3) — bounds-checked removal, paired
with the Suite as it stands afterwards; an out-of-range index fails with
`IndexOutOfRangeError` and leaves the Suite unchanged. -/
def Suite.remove (s : Suite) (i : Nat) : Except RegError Unit × Suite :=
  if i < s.expectations.length then
    (Except.ok (), { s with expectations := s.expectations.eraseIdx i })
  else
    (Except.error (RegError.indexOutOfRangeError i), s)

/-- Modelled from the spec: the process-wide suite registry (§4.3), keyed by
suite name. -/
structure Registry where
  suites : List (String × Suite)
  deriving DecidableEq, Repr

/-- Modelled from the spec: `create` (§4.3) — fails with
`DuplicateSuiteNameError` when the name is already registered, leaving the
registry unchanged; otherwise registers a fresh empty Suite under the name. -/
def Registry.create (r : Registry) (name : String) : Except RegError Suite × Registry :=
  if (r.suites.lookup name).isSome then
    (Except.error (RegError.duplicateSuiteNameError name), r)
  else
    let s : Suite := { name := name, expectations := [] }
    (Except.ok s, { suites := r.suites ++ [(name, s)] })

/-- Modelled from the spec: registry lookup `get` (§4.3). -/
def Registry.get (r : Registry) (name : String) : Except RegError Suite :=
  match r.suites.lookup name with
  | some s => Except.ok s
  | none => Except.error (RegError.suiteNotFoundError name)

/-- Modelled from the spec: the Runner's loop (§4.4) — for each Expectation
in suite order, resolve its column, evaluate, collect the outcome; the Batch
is threaded through explicitly so that its immutability is a provable
statement.  A failed column lookup aborts the whole traversal. -/
def runAux (b : Batch) : List Expectation → Except VError (List ExpectationOutcome × Batch)
  | [] => Except.ok ([], b)
  | e :: rest =>
      match get_column b e.column with
      | Except.error err => Except.error err
      | Except.ok values =>
          let o := e.evaluate defaultSampleLimit values
          match runAux b rest with
          | Except.error err => Except.error err
          | Except.ok (os, b2) => Except.ok (o :: os, b2)

/-- Modelled from the spec: `run` (§4.4) — executes a Suite against a Batch;
the overall success flag is the conjunction of all per-expectation outcomes;
an unknown column aborts the run with no Result. -/
def run (b : Batch) (s : Suite) : Except VError (ValidationResult × Batch) :=
  match runAux b s.expectations with
  | Except.error err => Except.error err
  | Except.ok (os, b2) =>
      Except.ok ({ success := os.all (fun o => o.success), outcomes := os }, b2)

/-- Modelled from the spec: the row indices where a null occurred (§4.2 NotNull
detail), stated independently of the engine as a filter over all row positions
in increasing order. -/
def specNullIndices (values : List Value) : List Nat :=
  (List.range values.length).filter (fun i => decide (values[i]? = some Value.null))

/-- Translated from src/gx_yellowtaxi_data_validation_tutorial.ipynb: the first
expectation cell adds `ExpectColumnValuesToNotBeNull(column="pickup_date")`. -/
def expect_pickup_date_not_null : Expectation := Expectation.notNull "pickup_date"

/-- Translated from src/gx_yellowtaxi_data_validation_tutorial.ipynb: the second
expectation cell adds `ExpectColumnValuesToBeBetween(column="passenger_count",
min_value=0, max_value=6)`, built here through the checked constructor. -/
def expect_passenger_count_between : Except ConfigError Expectation :=
  mkInRange "passenger_count" (some 0) (some 6)

/-- Translated from src/gx_yellowtaxi_data_validation_tutorial.ipynb: the suite
named "yellowtaxi_data_suite" is created empty and the two expectations are
added in cell order — the not-null rule on `pickup_date`, then the range rule
on `passenger_count`. -/
def yellowtaxi_data_suite : Suite :=
  ((Suite.mk "yellowtaxi_data_suite" []).add expect_pickup_date_not_null).add
    (Expectation.inRange "passenger_count" (some 0) (some 6))

/-- Example column of spec.md §8 for the InRange rule. -/
def rangeDemoColumn : List Value :=
  [Value.int 0, Value.int 3, Value.int 6, Value.int 7, Value.null, Value.int (-1)]

/-- Second example column of spec.md §8 for the InRange rule. -/
def rangeDemoColumn2 : List Value :=
  [Value.int 0, Value.int 1, Value.int 2, Value.int 3, Value.int 4, Value.int 5,
   Value.int 6]

/-- Example column of spec.md §8 for the NotNull rule. -/
def notNullDemoColumn : List Value :=
  [Value.str "a", Value.null, Value.str "b", Value.null]

/-- Concrete two-column batch matching the notebook's table shape, used to
instantiate the hypotheses of the general theorems below. -/
def demoBatch : Batch :=
  { cols := [("pickup_date", [Value.str "2024-01-01", Value.null]),
             ("passenger_count", [Value.int 3, Value.int 9])] }

/-- The Validation Result `run` produces on `demoBatch` with the notebook's
suite. -/
def demoResult : ValidationResult :=
  { success := false
    outcomes :=
      [{ expectation := Expectation.notNull "pickup_date"
         success := false
         detail := Detail.notNullDetail 1 [1] },
       { expectation := Expectation.inRange "passenger_count" (some 0) (some 6)
         success := false
         detail := Detail.inRangeDetail 1 2 ((1 : ℚ) / 2) [(1, Value.int 9)] }] }

/-! Helper lemmas about the evaluators. -/

theorem isNull_eq_true_iff (v : Value) : v.isNull = true ↔ v = Value.null := by
  cases v <;> simp [Value.isNull]

theorem outOfRangeFrom_eq_nil_iff (lo hi : Option Int) (values : List Value) :
    ∀ k, (outOfRangeFrom lo hi k values = [] ↔ ∀ v ∈ values, v.inRangeOk lo hi = true) := by
  induction values with
  | nil => intro k; simp [outOfRangeFrom]
  | cons v vs ih =>
      intro k
      by_cases h : v.inRangeOk lo hi
      · simp [outOfRangeFrom, h, ih (k + 1)]
      · simp [outOfRangeFrom, h]

theorem inRangeOk_iff (lo hi : Option Int) (v : Value) :
    v.inRangeOk lo hi = true ↔
      (v = Value.null ∨ ∃ n, v = Value.int n ∧ (∀ m ∈ lo, m ≤ n) ∧ (∀ m ∈ hi, n ≤ m)) := by
  cases v with
  | null => simp [Value.inRangeOk]
  | int n =>
      cases lo with
      | none => cases hi with
        | none => simp [Value.inRangeOk]
        | some m => simp [Value.inRangeOk]
      | some m => cases hi with
        | none => simp [Value.inRangeOk]
        | some m2 => simp [Value.inRangeOk, and_assoc]
  | str s => simp [Value.inRangeOk]

theorem nullIndicesFrom_eq_nil_iff (values : List Value) :
    ∀ k, (nullIndicesFrom k values = [] ↔ ∀ v ∈ values, v ≠ Value.null) := by
  induction values with
  | nil => intro k; simp [nullIndicesFrom]
  | cons v vs ih =>
      intro k
      by_cases h : v.isNull
      · have hv : v = Value.null := by cases v <;> simp_all [Value.isNull]
        simp [nullIndicesFrom, Value.isNull, h, hv]
      · have hv : v ≠ Value.null := by cases v <;> simp_all [Value.isNull]
        simp [nullIndicesFrom, h, hv, ih (k + 1)]

theorem specNullIndices_cons (v : Value) (vs : List Value) :
    specNullIndices (v :: vs) =
      (if v = Value.null then [0] else []) ++ (specNullIndices vs).map Nat.succ := by
  have hpred : ((fun i => decide ((v :: vs)[i]? = some Value.null)) ∘ Nat.succ)
      = fun i => decide (vs[i]? = some Value.null) := by
    funext i
    simp [Function.comp]
  unfold specNullIndices
  rw [List.length_cons, List.range_succ_eq_map, List.filter_cons, List.filter_map, hpred]
  by_cases hv : v = Value.null
  · simp [hv]
  · simp [hv]

theorem map_shift (k : Nat) (l : List Nat) :
    l.map (fun i => k + 1 + i) = (l.map Nat.succ).map (fun i => k + i) := by
  induction l with
  | nil => rfl
  | cons a l ih =>
      simp only [List.map_cons, ih]
      congr 1
      omega

theorem nullIndicesFrom_eq (values : List Value) :
    ∀ k, nullIndicesFrom k values = (specNullIndices values).map (fun i => k + i) := by
  induction values with
  | nil => intro k; simp [nullIndicesFrom, specNullIndices]
  | cons v vs ih =>
      intro k
      rw [specNullIndices_cons]
      by_cases h : v = Value.null
      · subst h
        simp only [nullIndicesFrom, Value.isNull, if_pos rfl, List.map_append, List.map_cons,
          List.map_nil, List.singleton_append]
        rw [ih (k + 1), map_shift]
        norm_num
      · have hb : Value.isNull v = false := by cases v <;> simp_all [Value.isNull]
        simp only [nullIndicesFrom, hb, Bool.false_eq_true, if_neg, h, List.map_append,
          List.map_nil, List.nil_append]
        rw [ih (k + 1), map_shift]
        simp

theorem nullIndicesFrom_zero_eq (values : List Value) :
    nullIndicesFrom 0 values = specNullIndices values := by
  rw [nullIndicesFrom_eq values 0]
  simp

theorem length_nullIndicesFrom (values : List Value) :
    ∀ k, (nullIndicesFrom k values).length = (values.filter Value.isNull).length := by
  induction values with
  | nil => intro k; simp [nullIndicesFrom]
  | cons v vs ih =>
      intro k
      by_cases h : v.isNull
      · simp [nullIndicesFrom, h, List.filter_cons, ih (k + 1)]
      · simp [nullIndicesFrom, h, List.filter_cons, ih (k + 1)]

theorem nullIndicesFrom_ge (values : List Value) :
    ∀ k, ∀ i ∈ nullIndicesFrom k values, k ≤ i := by
  induction values with
  | nil => intro k i hi; simp [nullIndicesFrom] at hi
  | cons v vs ih =>
      intro k i hi
      by_cases h : v.isNull
      · simp [nullIndicesFrom, h] at hi
        rcases hi with rfl | hi
        · exact le_refl _
        · exact le_of_lt (Nat.lt_of_lt_of_le (Nat.lt_succ_self k) (ih (k + 1) i hi))
      · simp [nullIndicesFrom, h] at hi
        exact le_of_lt (Nat.lt_of_lt_of_le (Nat.lt_succ_self k) (ih (k + 1) i hi))

theorem nullIndicesFrom_pairwise (values : List Value) :
    ∀ k, (nullIndicesFrom k values).Pairwise (fun i j => i < j) := by
  induction values with
  | nil => intro k; simp [nullIndicesFrom]
  | cons v vs ih =>
      intro k
      by_cases h : v.isNull
      · simp only [nullIndicesFrom, h, if_pos rfl]
        exact List.Pairwise.cons
          (fun j hj => Nat.lt_of_lt_of_le (Nat.lt_succ_self k) (nullIndicesFrom_ge vs (k + 1) j hj))
          (ih (k + 1))
      · simp only [nullIndicesFrom, h]
        simpa using ih (k + 1)

theorem outOfRangeFrom_ge (lo hi : Option Int) (values : List Value) :
    ∀ k, ∀ p ∈ outOfRangeFrom lo hi k values, k ≤ p.1 := by
  induction values with
  | nil => intro k p hp; simp [outOfRangeFrom] at hp
  | cons v vs ih =>
      intro k p hp
      by_cases h : v.inRangeOk lo hi
      · simp [outOfRangeFrom, h] at hp
        exact le_of_lt (Nat.lt_of_lt_of_le (Nat.lt_succ_self k) (ih (k + 1) p hp))
      · simp [outOfRangeFrom, h] at hp
        rcases hp with rfl | hp
        · exact le_refl _
        · exact le_of_lt (Nat.lt_of_lt_of_le (Nat.lt_succ_self k) (ih (k + 1) p hp))

theorem outOfRangeFrom_pairwise (lo hi : Option Int) (values : List Value) :
    ∀ k, (outOfRangeFrom lo hi k values).Pairwise (fun p q => p.1 < q.1) := by
  induction values with
  | nil => intro k; simp [outOfRangeFrom]
  | cons v vs ih =>
      intro k
      by_cases h : v.inRangeOk lo hi
      · simp only [outOfRangeFrom, h, if_pos rfl]
        simpa using ih (k + 1)
      · simp only [outOfRangeFrom, h]
        exact List.Pairwise.cons
          (fun q hq => Nat.lt_of_lt_of_le (Nat.lt_succ_self k)
            (outOfRangeFrom_ge lo hi vs (k + 1) q hq))
          (ih (k + 1))

/-! Helper lemmas about the Runner. -/

theorem runAux_ok_batch (b : Batch) (l : List Expectation) (os : List ExpectationOutcome)
    (b2 : Batch) (h : runAux b l = Except.ok (os, b2)) : b2 = b := by
  induction l generalizing os with
  | nil =>
      simp only [runAux] at h
      cases h
      rfl
  | cons e rest ih =>
      simp only [runAux] at h
      cases hc : get_column b e.column with
      | error err => rw [hc] at h; cases h
      | ok values =>
          rw [hc] at h
          cases hr : runAux b rest with
          | error err => rw [hr] at h; cases h
          | ok p =>
              rw [hr] at h
              cases p with
              | mk os2 b3 =>
                  cases h
                  exact ih os2 hr

theorem runAux_error_form (b : Batch) (l : List Expectation) (err : VError)
    (h : runAux b l = Except.error err) :
    ∃ c, err = VError.unknownColumnError c ∧ b.cols.lookup c = none ∧
      ∃ e ∈ l, e.column = c := by
  induction l with
  | nil => simp [runAux] at h
  | cons e rest ih =>
      simp only [runAux] at h
      cases hc : b.cols.lookup e.column with
      | none =>
          have hg : get_column b e.column = Except.error (VError.unknownColumnError e.column) := by
            simp [get_column, hc]
          rw [hg] at h
          cases h
          exact ⟨e.column, rfl, hc, e, List.mem_cons_self e rest, rfl⟩
      | some values =>
          have hg : get_column b e.column = Except.ok values := by
            simp [get_column, hc]
          rw [hg] at h
          cases hr : runAux b rest with
          | error err2 =>
              rw [hr] at h
              cases h
              obtain ⟨c, hcerr, hlook, e2, he2, hcol⟩ := ih hr
              exact ⟨c, hcerr, hlook, e2, List.mem_cons_of_mem e he2, hcol⟩
          | ok p => rw [hr] at h; cases h

theorem runAux_missing_column (b : Batch) (l : List Expectation)
    (h : ∃ e ∈ l, b.cols.lookup e.column = none) :
    ∃ err, runAux b l = Except.error err := by
  induction l with
  | nil => simp at h
  | cons e rest ih =>
      rcases h with ⟨e2, he2, hlook⟩
      rcases List.mem_cons.mp he2 with rfl | he2
      · cases hc : b.cols.lookup e2.column with
        | none =>
            refine ⟨VError.unknownColumnError e2.column, ?_⟩
            simp [runAux, get_column, hc]
        | some values => rw [hc] at hlook; cases hlook
      · cases hc : b.cols.lookup e.column with
        | none =>
            refine ⟨VError.unknownColumnError e.column, ?_⟩
            simp [runAux, get_column, hc]
        | some values =>
            obtain ⟨err, herr⟩ := ih ⟨e2, he2, hlook⟩
            refine ⟨err, ?_⟩
            simp [runAux, get_column, hc, herr]

theorem runAux_total (b : Batch) (l : List Expectation)
    (h : ∀ e ∈ l, (b.cols.lookup e.column).isSome) :
    runAux b l = Except.ok
      (l.map (fun e => e.evaluate defaultSampleLimit ((b.cols.lookup e.column).getD [])), b) := by
  induction l with
  | nil => simp [runAux]
  | cons e rest ih =>
      cases hc : b.cols.lookup e.column with
      | none =>
          have hs := h e (List.mem_cons_self e rest)
          rw [hc] at hs
          cases hs
      | some values =>
          have hrest : ∀ e2 ∈ rest, (b.cols.lookup e2.column).isSome :=
            fun e2 he2 => h e2 (List.mem_cons_of_mem e he2)
          simp [runAux, get_column, hc, ih hrest]

theorem run_error_iff_runAux (b : Batch) (s : Suite) (err : VError) :
    run b s = Except.error err ↔ runAux b s.expectations = Except.error err := by
  unfold run
  cases hr : runAux b s.expectations with
  | error err2 => simp
  | ok p => cases p; simp


/-- C1: for every Batch B and Suite S, the overall success flag of the
Validation Result returned by run(B, S) equals the logical AND of the success
flags of all per-expectation outcomes in that Result. -/
theorem C1_run_success_is_and_of_outcomes (b : Batch) (s : Suite)
    (r : ValidationResult) (b2 : Batch) (h : run b s = Except.ok (r, b2)) :
    r.success = r.outcomes.all (fun o => o.success) := by
  unfold run at h
  cases hr : runAux b s.expectations with
  | error err => rw [hr] at h; cases h
  | ok p =>
      rw [hr] at h
      cases p
      cases h
      rfl

/-- Witness for C1: the aggregate-consistency equation instantiated on the
notebook suite run against a concrete batch. -/
theorem C1_witness :
    demoResult.success = demoResult.outcomes.all (fun o => o.success) :=
  C1_run_success_is_and_of_outcomes demoBatch yellowtaxi_data_suite demoResult demoBatch
    (by rfl)


/-- C2: an InRange(min, max) outcome is successful iff every non-null value
lies within the configured inclusive bounds (absent bounds unchecked, nulls
vacuously in range); on [0, 3, 6, 7, None, -1] with bounds (0, 6) it fails
with out-of-range count 2 and fraction 2/5 (= 0.4) among the 5 non-null
values, and on [0, 1, 2, 3, 4, 5, 6] it succeeds with count 0. -/
theorem C2_inRange_semantics :
    (∀ (e : Expectation) (lo hi : Option Int) (values : List Value),
        (evaluateInRange defaultSampleLimit e lo hi values).success = true ↔
          ∀ v ∈ values, v = Value.null ∨
            ∃ n, v = Value.int n ∧ (∀ m ∈ lo, m ≤ n) ∧ (∀ m ∈ hi, n ≤ m))
  ∧ (evaluateInRange defaultSampleLimit
        (Expectation.inRange "passenger_count" (some 0) (some 6))
        (some 0) (some 6) rangeDemoColumn).success = false
  ∧ (evaluateInRange defaultSampleLimit
        (Expectation.inRange "passenger_count" (some 0) (some 6))
        (some 0) (some 6) rangeDemoColumn).detail =
      Detail.inRangeDetail 2 5 ((2 : ℚ) / 5) [(3, Value.int 7), (5, Value.int (-1))]
  ∧ (evaluateInRange defaultSampleLimit
        (Expectation.inRange "passenger_count" (some 0) (some 6))
        (some 0) (some 6) rangeDemoColumn2).success = true
  ∧ (evaluateInRange defaultSampleLimit
        (Expectation.inRange "passenger_count" (some 0) (some 6))
        (some 0) (some 6) rangeDemoColumn2).detail =
      Detail.inRangeDetail 0 7 0 [] := by
  have hoff : outOfRangeFrom (some 0) (some 6) 0 rangeDemoColumn2 = [] := by decide
  have hnn : (rangeDemoColumn2.filter (fun v => !v.isNull)).length = 7 := by decide
  refine ⟨?_, by rfl, by rfl, by rfl, by simp [evaluateInRange, hoff, hnn]⟩
  intro e lo hi values
  show (outOfRangeFrom lo hi 0 values).isEmpty = true ↔ _
  rw [List.isEmpty_iff, outOfRangeFrom_eq_nil_iff lo hi values 0]
  constructor
  · intro h v hv
    exact (inRangeOk_iff lo hi v).mp (h v hv)
  · intro h v hv
    exact (inRangeOk_iff lo hi v).mpr (h v hv)

/-- C3: a NotNull outcome is successful iff no value in the column is null;
its detail reports the null count and the first `defaultSampleLimit` (20) row
indices holding a null; on ["a", None, "b", None] it fails with null count 2
and sample indices [1, 3]. -/
theorem C3_notNull_semantics :
    (∀ (e : Expectation) (values : List Value),
        (evaluateNotNull defaultSampleLimit e values).success = true ↔
          ∀ v ∈ values, v ≠ Value.null)
  ∧ (∀ (e : Expectation) (values : List Value),
        (evaluateNotNull defaultSampleLimit e values).detail =
          Detail.notNullDetail (values.filter Value.isNull).length
            ((specNullIndices values).take defaultSampleLimit))
  ∧ (evaluateNotNull defaultSampleLimit (Expectation.notNull "pickup_date")
        notNullDemoColumn).success = false
  ∧ (evaluateNotNull defaultSampleLimit (Expectation.notNull "pickup_date")
        notNullDemoColumn).detail = Detail.notNullDetail 2 [1, 3] := by
  refine ⟨?_, ?_, by decide, by decide⟩
  · intro e values
    show (nullIndicesFrom 0 values).isEmpty = true ↔ _
    rw [List.isEmpty_iff, nullIndicesFrom_eq_nil_iff values 0]
  · intro e values
    show Detail.notNullDetail (nullIndicesFrom 0 values).length
        ((nullIndicesFrom 0 values).take defaultSampleLimit) = _
    rw [length_nullIndicesFrom values 0, nullIndicesFrom_zero_eq]


/-- C4: run(B, S) fails with UnknownColumnError exactly when some Expectation
in S references a column absent from B; the run then aborts with no partial
Validation Result — an error and a returned Result are mutually exclusive. -/
theorem C4_unknown_column_aborts (b : Batch) (s : Suite) :
    ((∃ err, run b s = Except.error err) ↔
      ∃ e ∈ s.expectations, b.cols.lookup e.column = none)
  ∧ (∀ err, run b s = Except.error err →
      ∃ c, err = VError.unknownColumnError c ∧ b.cols.lookup c = none)
  ∧ (∀ err r b2, run b s = Except.error err → run b s ≠ Except.ok (r, b2)) := by
  refine ⟨⟨?_, ?_⟩, ?_, ?_⟩
  · rintro ⟨err, herr⟩
    obtain ⟨c, _, hlook, e, he, hcol⟩ :=
      runAux_error_form b s.expectations err ((run_error_iff_runAux b s err).mp herr)
    exact ⟨e, he, hcol ▸ hlook⟩
  · intro h
    obtain ⟨err, herr⟩ := runAux_missing_column b s.expectations h
    exact ⟨err, (run_error_iff_runAux b s err).mpr herr⟩
  · intro err herr
    obtain ⟨c, hc, hlook, _⟩ :=
      runAux_error_form b s.expectations err ((run_error_iff_runAux b s err).mp herr)
    exact ⟨c, hc, hlook⟩
  · intro err r b2 herr hok
    rw [herr] at hok
    cases hok

/-- C5: when every Expectation of the Suite references a column of the Batch,
run returns a Result with exactly one outcome per Expectation, in suite
order, each produced by evaluating that Expectation on its column — no
short-circuiting. -/
theorem C5_all_evaluated_in_order (b : Batch) (s : Suite)
    (h : ∀ e ∈ s.expectations, (b.cols.lookup e.column).isSome = true) :
    ∃ r b2, run b s = Except.ok (r, b2) ∧
      r.outcomes.length = s.expectations.length ∧
      ∀ i, i < s.expectations.length →
        ∃ e values, s.expectations[i]? = some e ∧
          get_column b e.column = Except.ok values ∧
          r.outcomes[i]? = some (e.evaluate defaultSampleLimit values) := by
  have htot := runAux_total b s.expectations h
  refine ⟨⟨(s.expectations.map (fun e =>
      Expectation.evaluate defaultSampleLimit e ((b.cols.lookup e.column).getD []))).all
      (fun o => o.success),
    s.expectations.map (fun e =>
      Expectation.evaluate defaultSampleLimit e ((b.cols.lookup e.column).getD []))⟩,
    b, ?_, ?_, ?_⟩
  · unfold run
    rw [htot]
  · simp
  · intro i hi
    have he : s.expectations[i]? = some s.expectations[i] := List.getElem?_eq_getElem hi
    have hmem : s.expectations[i] ∈ s.expectations := List.getElem_mem hi
    cases hc : b.cols.lookup (s.expectations[i]).column with
    | none =>
        have hs := h _ hmem
        rw [hc] at hs
        cases hs
    | some values =>
        refine ⟨s.expectations[i], values, he, by simp [get_column, hc], ?_⟩
        simp only [List.getElem?_map, he]
        simp [hc]

/-- Witness for C5: the exhaustive-evaluation statement instantiated on the
notebook suite against a concrete batch holding both referenced columns. -/
theorem C5_witness :
    ∃ r b2, run demoBatch yellowtaxi_data_suite = Except.ok (r, b2) ∧
      r.outcomes.length = yellowtaxi_data_suite.expectations.length ∧
      ∀ i, i < yellowtaxi_data_suite.expectations.length →
        ∃ e values, yellowtaxi_data_suite.expectations[i]? = some e ∧
          get_column demoBatch e.column = Except.ok values ∧
          r.outcomes[i]? = some (e.evaluate defaultSampleLimit values) :=
  C5_all_evaluated_in_order demoBatch yellowtaxi_data_suite (by decide)


/-- C6: run is deterministic and idempotent — two invocations on the same
(Batch, Suite) pair agree — and the bounded samples in outcome details are
selected by the stable rule "first N by row index": violating indices are
produced in strictly increasing row order, and the NotNull sample is exactly
the first `limit` elements of the increasing list of null row positions. -/
theorem C6_deterministic_idempotent :
    (∀ (b : Batch) (s : Suite), run b s = run b s)
  ∧ (∀ values, (nullIndicesFrom 0 values).Pairwise (fun i j => i < j))
  ∧ (∀ lo hi values, (outOfRangeFrom lo hi 0 values).Pairwise (fun p q => p.1 < q.1))
  ∧ (∀ (limit : Nat) (e : Expectation) (values : List Value),
      (evaluateNotNull limit e values).detail =
        Detail.notNullDetail ((specNullIndices values).length)
          ((specNullIndices values).take limit)) := by
  refine ⟨fun b s => rfl, fun values => nullIndicesFrom_pairwise values 0,
    fun lo hi values => outOfRangeFrom_pairwise lo hi values 0, ?_⟩
  intro limit e values
  show Detail.notNullDetail (nullIndicesFrom 0 values).length
      ((nullIndicesFrom 0 values).take limit) = _
  rw [nullIndicesFrom_zero_eq]

/-- C7: registry and suite mutations fail eagerly and atomically — create on
an already-registered name fails with DuplicateSuiteNameError leaving the
registry unchanged, and remove at an out-of-bounds index fails with
IndexOutOfRangeError leaving the Suite's expectation sequence unchanged. -/
theorem C7_registry_errors_eager_atomic :
    (∀ (r : Registry) (name : String), (r.suites.lookup name).isSome = true →
        r.create name = (Except.error (RegError.duplicateSuiteNameError name), r))
  ∧ (∀ (s : Suite) (i : Nat), s.expectations.length ≤ i →
        s.remove i = (Except.error (RegError.indexOutOfRangeError i), s)) := by
  constructor
  · intro r name h
    unfold Registry.create
    rw [if_pos h]
  · intro s i h
    unfold Suite.remove
    rw [if_neg (by omega)]

/-- C8: running an empty Suite against any Batch yields success = true with
an empty outcome sequence. -/
theorem C8_empty_suite_vacuous (b : Batch) (n : String) :
    run b { name := n, expectations := [] } =
      Except.ok ({ success := true, outcomes := [] }, b) := rfl

/-- C9: a run leaves the Batch unchanged — the Batch threaded through the
Runner comes back equal to the input, so its column names and value
sequences are identical before and after; per-expectation evaluation is a
pure function of the column values and cannot touch the Batch at all. -/
theorem C9_run_preserves_batch (b : Batch) (s : Suite) (r : ValidationResult)
    (b2 : Batch) (h : run b s = Except.ok (r, b2)) :
    b2 = b ∧ b2.cols = b.cols := by
  have hb : b2 = b := by
    unfold run at h
    cases hr : runAux b s.expectations with
    | error err => rw [hr] at h; cases h
    | ok p =>
        rw [hr] at h
        cases p with
        | mk os b3 =>
            cases h
            exact runAux_ok_batch _ _ _ _ hr
  exact ⟨hb, by rw [hb]⟩

/-- Witness for C9: the frame property instantiated on the notebook suite
and a concrete batch. -/
theorem C9_witness : demoBatch = demoBatch ∧ demoBatch.cols = demoBatch.cols :=
  C9_run_preserves_batch demoBatch yellowtaxi_data_suite demoResult demoBatch (by rfl)

/-- C10: after the notebook's expectation-definition cells run in order, the
suite "yellowtaxi_data_suite" holds exactly two expectations — NotNull on
"pickup_date" then InRange on "passenger_count" with inclusive bounds 0 and
6 — and since 0 ≤ 6 the checked constructor accepts the range rule, so
building the suite raises no configuration error. -/
theorem C10_notebook_suite :
    yellowtaxi_data_suite.name = "yellowtaxi_data_suite"
  ∧ yellowtaxi_data_suite.expectations =
      [Expectation.notNull "pickup_date",
       Expectation.inRange "passenger_count" (some 0) (some 6)]
  ∧ yellowtaxi_data_suite.expectations.length = 2
  ∧ expect_passenger_count_between =
      Except.ok (Expectation.inRange "passenger_count" (some 0) (some 6))
  ∧ (Expectation.inRange "passenger_count" (some 0) (some 6)).validConfig = true := by
  exact ⟨rfl, rfl, rfl, rfl, rfl⟩

end TaxiValidation
